import Mathlib

/-!
Verification of the lamzu-cfg configuration library.

Shallow embedding of the core of the repository: the two 8-bit checksum
algorithms, the 17-byte HID packet codec, the DPI scaling, the per-slot
profile codec over a 0x1B00-byte memory image, the buffered profile
reader / writer, the user-profile to raw-profile translation, the response
read loop of the transport, and the per-profile mouse facade.

Machine integers are modelled as Nat with explicit reductions mod 256
(u8) and mod 65536 (u16) where the source wraps; Rust Result is
modelled as Except, Option as Option.  Byte buffers are List Nat whose
elements are < 256 where it matters (stated as hypotheses).
-/

namespace LamzuCfg

instance instDecEqExcept {ε α : Type _} [DecidableEq ε] [DecidableEq α] :
    DecidableEq (Except ε α) := fun a b =>
  match a, b with
  | .error e1, .error e2 =>
    if h : e1 = e2 then isTrue (by simp [h]) else isFalse (by simp [h])
  | .error _, .ok _ => isFalse (by simp)
  | .ok _, .error _ => isFalse (by simp)
  | .ok v1, .ok v2 =>
    if h : v1 = v2 then isTrue (by simp [h]) else isFalse (by simp [h])

/-! ### Checksums

Source: src/device/atlantis/checksum.rs (packet checksum, wrapping
subtraction from 85) and src/device/checksum.rs (SumComplement8 with a
const INIT, wrapping addition, two's complement finish). -/

/-- One step of the packet checksum: wrapping subtraction of a byte,
from src/device/atlantis/checksum.rs (checksum.wrapping_sub(byte)). -/
def wsub (s b : Nat) : Nat := (s + 256 - b % 256) % 256

/-- compute_checksum from src/device/atlantis/checksum.rs: start at 85 and
wrapping-subtract every byte.  The Checksum stream wrapper performs the
same accumulation over every byte read or written. -/
def compute_checksum (bytes : List Nat) : Nat := bytes.foldl wsub 85

/-- The bytes the packet checksum hashes during an inbound read of a
17-byte report: binrw reads the six leading bytes (report ID, command,
error, two address bytes, data length), then data-length data bytes,
seeks over the pad_size_to padding without hashing it (the Checksum
wrapper hashes only bytes actually read), and reads the checksum byte at
offset 16. -/
def readHashedBytes (bytes : List Nat) : List Nat :=
  bytes.take 6 ++ (bytes.drop 6).take (bytes.getD 5 0) ++ [bytes.getD 16 0]

/-- Inbound packet checksum validation (the assert s.checksum() == 0 in
StandardReport): the accumulator over the bytes actually read must be
zero.  Padding bytes are seeked over, hence not covered. -/
def reportChecksumValid (bytes : List Nat) : Bool :=
  compute_checksum (readHashedBytes bytes) == 0

/-- SumComplement8 accumulation from src/device/checksum.rs:
sum starts at INIT and wrapping-adds every byte. -/
def sumAdd (init : Nat) (bytes : List Nat) : Nat :=
  bytes.foldl (fun s b => (s + b) % 256) (init % 256)

/-- SumComplement8 finish: two's complement of the accumulated sum
(0u8.wrapping_sub(sum)). -/
def sumFinish (init : Nat) (bytes : List Nat) : Nat :=
  (256 - sumAdd init bytes) % 256

/-- SumComplement8 is_valid: finish() == 0 after also consuming the
received checksum byte. -/
def sumValid (init : Nat) (bytes : List Nat) : Bool := sumFinish init bytes == 0

/-- The byte sequence emitted for a present Setting slot of content
payload: the serialized content followed by the finish() byte
(checksum::Append8 in src/device/checksum.rs, used by Setting in
src/device/atlantis/raw_profile.rs). -/
def settingEncode (init : Nat) (payload : List Nat) : List Nat :=
  payload ++ [sumFinish init payload]

/-! ### Packet codec

Source: src/device/atlantis/report.rs.  A StandardReport is 17 bytes:
report ID 8, command, error, big-endian u16 address, data length, 10
data bytes (zero padded), trailing packet checksum. -/

/-- Command enum from src/device/atlantis/report.rs. -/
inductive Command where
  | writeProfileData
  | readProfileData
  | readActiveProfile
  | writeActiveProfile
deriving DecidableEq, Repr

/-- Wire byte of each command (repr = u8 values 7, 8, 14, 15). -/
def Command.toByte : Command → Nat
  | .writeProfileData => 7
  | .readProfileData => 8
  | .readActiveProfile => 14
  | .writeActiveProfile => 15

/-- StandardReport fields (the temp len and checksum fields are computed
during serialization, as in the binrw derive). -/
structure StandardReport where
  cmd : Command
  error : Nat
  address : Nat
  data : List Nat
deriving DecidableEq, Repr

/-- The 16 bytes of a report before the checksum: report ID 8, command,
error, address (big-endian u16, the Rust field is u16 so the value is
reduced mod 65536), data length, data padded with zeros to 10 bytes. -/
def StandardReport.bytes16 (r : StandardReport) : List Nat :=
  [8, r.cmd.toByte, r.error, r.address % 65536 / 256, r.address % 256,
    r.data.length] ++ r.data ++ List.replicate (10 - r.data.length) 0

/-- Full 17-byte serialization: the 16 content bytes followed by the
packet checksum accumulated over them. -/
def StandardReport.serialize (r : StandardReport) : List Nat :=
  r.bytes16 ++ [compute_checksum r.bytes16]

/-- StandardReport::read_profile_data constructor. -/
def readProfileDataReq (address length : Nat) : StandardReport :=
  { cmd := .readProfileData, error := 0, address := address,
    data := List.replicate length 0 }

/-- StandardReport::write_profile_data constructor. -/
def writeProfileDataReq (address : Nat) (data : List Nat) : StandardReport :=
  { cmd := .writeProfileData, error := 0, address := address, data := data }

/-- StandardReport::read_active_profile constructor. -/
def readActiveProfileReq : StandardReport :=
  { cmd := .readActiveProfile, error := 0, address := 0, data := [] }

/-- StandardReport::write_active_profile constructor. -/
def writeActiveProfileReq (profileIndex : Nat) : StandardReport :=
  { cmd := .writeActiveProfile, error := 0, address := 0,
    data := [profileIndex] }

/-- A 17-byte inbound report with data length 0, a nonzero byte 99 in the
padding area, and checksum byte 63: all-bytes sum 184. -/
def padReportA : List Nat := [8, 14, 0, 0, 0, 0, 99, 0, 0, 0, 0, 0, 0, 0, 0, 0, 63]

/-- A 17-byte inbound report with data length 0, the byte 1 in the padding
area, and checksum byte 62: all-bytes sum 85. -/
def padReportB : List Nat := [8, 14, 0, 0, 0, 0, 1, 0, 0, 0, 0, 0, 0, 0, 0, 0, 62]

/-! ### DPI scaling

Source: src/device/atlantis/raw_data.rs. -/

/-- dpi_to_raw: (dpi / 50).saturating_sub(1) as u8.  Nat subtraction is
saturating like u16 saturating_sub; the as-u8 cast truncates mod 256. -/
def dpi_to_raw (dpi : Nat) : Nat := ((dpi / 50) - 1) % 256

/-- dpi_from_raw: (raw as u16 + 1) * 50 (never exceeds u16 range). -/
def dpi_from_raw (raw : Nat) : Nat := (raw + 1) * 50

/-! ### Raw data types

Source: src/device/atlantis/raw_data.rs.  The keycode crate (external to
this repository) maps user-facing key identifiers to modifier bitmasks or
USB HID usage codes; user keys are modelled here directly by the raw key
id they map to, so that external table is not re-stated. -/

/-- RawDirection from raw_data.rs. -/
inductive RawDirectionM where
  | left | right | middle | back | forward
deriving DecidableEq, Repr

/-- Little-endian u16 magic value of each direction (1, 2, 4, 8, 16). -/
def RawDirectionM.val : RawDirectionM → Nat
  | .left => 1
  | .right => 2
  | .middle => 4
  | .back => 8
  | .forward => 16

/-- RawKeyId from raw_data.rs. -/
inductive RawKeyIdM where
  | modifier (bits : Nat)
  | hid (code : Nat)
  | consumer (code : Nat)
  | direction (d : RawDirectionM)
deriving DecidableEq, Repr

/-- RawKeyEvent from raw_data.rs (tag byte 0x80/0x81/0x82/0x84 for press,
0x40/0x41/0x42/0x44 for release, then a little-endian u16 key id). -/
inductive RawKeyEventM where
  | pressModifier (v : Nat)
  | pressHid (v : Nat)
  | pressConsumer (v : Nat)
  | pressDirection (d : RawDirectionM)
  | releaseModifier (v : Nat)
  | releaseHid (v : Nat)
  | releaseConsumer (v : Nat)
  | releaseDirection (d : RawDirectionM)
deriving DecidableEq, Repr

/-- RawKeyEvent::join from raw_data.rs. -/
def rawKeyEventJoin (pressed : Bool) (kid : RawKeyIdM) : RawKeyEventM :=
  match pressed, kid with
  | true, .modifier v => .pressModifier v
  | true, .hid v => .pressHid v
  | true, .consumer v => .pressConsumer v
  | true, .direction d => .pressDirection d
  | false, .modifier v => .releaseModifier v
  | false, .hid v => .releaseHid v
  | false, .consumer v => .releaseConsumer v
  | false, .direction d => .releaseDirection d

/-- RawKeyEvent::split from raw_data.rs: key state (pressed?) and raw id. -/
def rawKeyEventSplit : RawKeyEventM → Bool × RawKeyIdM
  | .pressModifier v => (true, .modifier v)
  | .pressHid v => (true, .hid v)
  | .pressConsumer v => (true, .consumer v)
  | .pressDirection d => (true, .direction d)
  | .releaseModifier v => (false, .modifier v)
  | .releaseHid v => (false, .hid v)
  | .releaseConsumer v => (false, .consumer v)
  | .releaseDirection d => (false, .direction d)

/-- User-facing KeyEvent (data.rs): a key plus pressed / released state.
The key is modelled by the raw key id the keycode crate maps it to. -/
structure KeyEventU where
  key : RawKeyIdM
  pressed : Bool
deriving DecidableEq, Repr

/-- From KeyEvent for RawKeyEvent (raw_data.rs). -/
def keyEventToRaw (e : KeyEventU) : RawKeyEventM := rawKeyEventJoin e.pressed e.key

/-- TryFrom RawKeyId for the user key (raw_data.rs): a modifier bitmask is
accepted only when exactly one known modifier bit is set; consumer codes
are unimplemented (error); HID and direction ids convert. -/
def rawKeyIdTryInto (kid : RawKeyIdM) : Option RawKeyIdM :=
  match kid with
  | .modifier v =>
    if v = 1 ∨ v = 2 ∨ v = 4 ∨ v = 8 ∨ v = 16 ∨ v = 32 ∨ v = 64 ∨ v = 128 then
      some (.modifier v)
    else none
  | .hid v => some (.hid v)
  | .consumer _ => none
  | .direction d => some (.direction d)

/-- TryFrom RawKeyEvent for KeyEvent (raw_data.rs). -/
def rawKeyEventTryInto (e : RawKeyEventM) : Except String KeyEventU :=
  let sp := rawKeyEventSplit e
  match rawKeyIdTryInto sp.2 with
  | some k => .ok { key := k, pressed := sp.1 }
  | none => .error "InvalidConversion: Failed to convert from raw key id"

/-- User-facing MacroEvent (data.rs): key event plus u16 delay in ms. -/
structure MacroEventU where
  keyEvent : KeyEventU
  delay : Nat
deriving DecidableEq, Repr

/-- RawMacroEvent (raw_data.rs): raw key event plus big-endian u16 delay. -/
structure RawMacroEventM where
  keyEvent : RawKeyEventM
  delay : Nat
deriving DecidableEq, Repr

/-- From MacroEvent for RawMacroEvent (raw_data.rs). -/
def macroEventToRaw (e : MacroEventU) : RawMacroEventM :=
  { keyEvent := keyEventToRaw e.keyEvent, delay := e.delay }

/-- TryFrom RawMacroEvent for MacroEvent (raw_data.rs). -/
def rawMacroEventTryInto (e : RawMacroEventM) : Except String MacroEventU :=
  match rawKeyEventTryInto e.keyEvent with
  | .ok k => .ok { keyEvent := k, delay := e.delay }
  | .error msg => .error msg

/-- A RawCombo (raw_data.rs) is its list of up to 6 raw key events. -/
def RawComboM := List RawKeyEventM
deriving instance DecidableEq, Repr for RawComboM

/-- RawMacro (raw_data.rs): a name of at most 30 bytes (modelled as an
ASCII string) and up to 70 raw macro events. -/
structure RawMacroM where
  name : String
  events : List RawMacroEventM
deriving DecidableEq, Repr

/-- RawAction (raw_data.rs): the wire-level button action. -/
inductive RawActionM where
  | disabled
  | button (id : Nat)
  | dpiLoop
  | dpiUp
  | dpiDown
  | wheelLeft
  | wheelRight
  | fire (interval rep : Nat)
  | comboR
  | macroR (index : Nat)
  | pollRateLoop
  | dpiLock (dpi : Nat)
  | wheelUp
  | wheelDown
deriving DecidableEq, Repr

/-- Serialized (big-endian magic) bytes of a RawAction, 1 to 3 bytes. -/
def rawActionBytes : RawActionM → List Nat
  | .disabled => [0]
  | .button id => [1, id]
  | .dpiLoop => [2, 1]
  | .dpiUp => [2, 2]
  | .dpiDown => [2, 3]
  | .wheelLeft => [3, 1]
  | .wheelRight => [3, 2]
  | .fire i r => [4, i, r]
  | .comboR => [5]
  | .macroR idx => [6, idx]
  | .pollRateLoop => [7]
  | .dpiLock d => [10, d]
  | .wheelUp => [11, 1]
  | .wheelDown => [11, 2]

/-- PaddedRawAction (raw_data.rs): the action padded with zero bytes to 3
bytes (binrw pad_size_to = 3 writes zeros on write). -/
def actionPadded (a : RawActionM) : List Nat :=
  rawActionBytes a ++ List.replicate (3 - (rawActionBytes a).length) 0

/-- Serialized bytes of a RawKeyEvent: tag byte then little-endian u16. -/
def rawKeyEventBytes : RawKeyEventM → List Nat
  | .pressModifier v => [0x80, v % 256, v % 65536 / 256]
  | .pressHid v => [0x81, v % 256, v % 65536 / 256]
  | .pressConsumer v => [0x82, v % 256, v % 65536 / 256]
  | .pressDirection d => [0x84, d.val, 0]
  | .releaseModifier v => [0x40, v % 256, v % 65536 / 256]
  | .releaseHid v => [0x41, v % 256, v % 65536 / 256]
  | .releaseConsumer v => [0x42, v % 256, v % 65536 / 256]
  | .releaseDirection d => [0x44, d.val, 0]

/-- Serialized bytes of a RawCombo: event count then the events. -/
def comboBytes (c : RawComboM) : List Nat :=
  [List.length c] ++ (List.map rawKeyEventBytes c).flatten

/-- Serialized bytes of a RawMacroEvent: key event then big-endian delay. -/
def rawMacroEventBytes (e : RawMacroEventM) : List Nat :=
  rawKeyEventBytes e.keyEvent ++ [e.delay % 65536 / 256, e.delay % 256]

/-- Serialized bytes of a RawMacro: name length, name zero-padded to 30
bytes, event count, events.  Names are modelled as ASCII strings. -/
def macroSerBytes (m : RawMacroM) : List Nat :=
  [m.name.length] ++ m.name.data.map Char.toNat ++
    List.replicate (30 - m.name.length) 0 ++
    [m.events.length] ++ (m.events.map rawMacroEventBytes).flatten

/-! ### User-facing profile model

Source: src/data.rs and src/profile.rs (the variants used by
src/device/atlantis/raw_profile.rs). -/

/-- Dpi from data.rs. -/
inductive DpiU where
  | linked (v : Nat)
  | independent (x y : Nat)
deriving DecidableEq, Repr

/-- Color from data.rs. -/
structure ColorU where
  red : Nat
  green : Nat
  blue : Nat
deriving DecidableEq, Repr

/-- Action from data.rs. -/
inductive ActionU where
  | disabled
  | leftClick
  | rightClick
  | middleClick
  | backClick
  | forwardClick
  | dpiLoop
  | dpiUp
  | dpiDown
  | dpiLock (dpi : Nat)
  | pollRateLoop
  | wheelLeft
  | wheelRight
  | wheelUp
  | wheelDown
  | fire (interval rep : Nat)
  | comboAct (events : List KeyEventU)
  | macroAct (name : String)
deriving DecidableEq, Repr

/-- Profile from src/profile.rs.  The macros HashMap is modelled as an
association list with unique keys (lookup = first match). -/
structure ProfileU where
  poll_rate : Option Nat := none
  current_dpi_index : Option Nat := none
  lift_off_distance : Option Nat := none
  debounce_ms : Option Nat := none
  motion_sync : Option Bool := none
  angle_snapping : Option Bool := none
  ripple_control : Option Bool := none
  peak_performance : Option Bool := none
  peak_performance_time : Option Nat := none
  high_performance : Option Bool := none
  dpis : List DpiU := []
  dpi_colors : List ColorU := []
  button_actions : List ActionU := []
  macros : List (String × List MacroEventU) := []
deriving DecidableEq, Repr

/-- RawProfile from src/device/atlantis/raw_profile.rs: every setting is an
Option (the Setting wrapper), vectors hold per-slot Options. -/
structure RawProfileM where
  poll_rate : Option Nat := none
  dpi_count : Option Nat := none
  current_dpi_index : Option Nat := none
  lift_off_distance : Option Nat := none
  dpis : List (Option (Nat × Nat)) := []
  dpi_colors : List (Option (Nat × Nat × Nat)) := []
  button_actions : List (Option RawActionM) := []
  debounce_ms : Option Nat := none
  motion_sync : Option Nat := none
  angle_snapping : Option Nat := none
  ripple_control : Option Nat := none
  peak_performance : Option Nat := none
  peak_performance_time : Option Nat := none
  high_performance : Option Nat := none
  combos : List (Option RawComboM) := []
  macros : List (Option RawMacroM) := []
deriving DecidableEq, Repr

/-- RawDpi conversion From Dpi (raw_data.rs). -/
def dpiToRawPair : DpiU → Nat × Nat
  | .linked v => (dpi_to_raw v, dpi_to_raw v)
  | .independent x y => (dpi_to_raw x, dpi_to_raw y)

/-- From RawDpi for Dpi (raw_data.rs): equal components decode Linked. -/
def dpiFromRawPair (d : Nat × Nat) : DpiU :=
  if dpi_from_raw d.1 = dpi_from_raw d.2 then .linked (dpi_from_raw d.1)
  else .independent (dpi_from_raw d.1) (dpi_from_raw d.2)

/-! ### Profile to raw translation

Source: src/device/atlantis/raw_profile.rs,
profile_to_raw_actions_combos_macros and TryFrom for RawProfile. -/

/-- HashMap::get on the macros table, modelled as first-match lookup. -/
def lookupMacro (macros : List (String × List MacroEventU)) (name : String) :
    Option (List MacroEventU) :=
  (macros.find? (fun kv => kv.1 == name)).map (fun kv => kv.2)

/-- HashMap::insert, modelled on the association list: replaces an
existing binding of the key, otherwise appends. -/
def assocInsert (k : String) (v : List MacroEventU)
    (m : List (String × List MacroEventU)) : List (String × List MacroEventU) :=
  if m.any (fun kv => kv.1 == k) then
    m.map (fun kv => if kv.1 == k then (k, v) else kv)
  else m ++ [(k, v)]

/-- Prepends a successfully converted action to the result triple. -/
def consAction (act : RawActionM) :
    Except String (List RawActionM × List (Option RawComboM) × List (Option RawMacroM)) →
    Except String (List RawActionM × List (Option RawComboM) × List (Option RawMacroM))
  | .ok (as, cs, ms) => .ok (act :: as, cs, ms)
  | .error e => .error e

/-- The enumerated traversal inside profile_to_raw_actions_combos_macros:
combos are slot-per-button (set at the action's index); macro slots are
allocated in encounter order and the action stores the slot index; a
macro name missing from the profile's macro table is an error. -/
def profileToRawACMAux (table : List (String × List MacroEventU)) :
    List (Nat × ActionU) → List (Option RawComboM) → List (Option RawMacroM) →
    Except String (List RawActionM × List (Option RawComboM) × List (Option RawMacroM))
  | [], combos, macrosAcc => .ok ([], combos, macrosAcc)
  | (i, a) :: rest, combos, macrosAcc =>
    match a with
    | .disabled => consAction .disabled (profileToRawACMAux table rest combos macrosAcc)
    | .leftClick => consAction (.button 1) (profileToRawACMAux table rest combos macrosAcc)
    | .rightClick => consAction (.button 2) (profileToRawACMAux table rest combos macrosAcc)
    | .middleClick => consAction (.button 4) (profileToRawACMAux table rest combos macrosAcc)
    | .backClick => consAction (.button 8) (profileToRawACMAux table rest combos macrosAcc)
    | .forwardClick => consAction (.button 16) (profileToRawACMAux table rest combos macrosAcc)
    | .dpiLoop => consAction .dpiLoop (profileToRawACMAux table rest combos macrosAcc)
    | .dpiUp => consAction .dpiUp (profileToRawACMAux table rest combos macrosAcc)
    | .dpiDown => consAction .dpiDown (profileToRawACMAux table rest combos macrosAcc)
    | .dpiLock dpi =>
      consAction (.dpiLock (dpi_to_raw dpi)) (profileToRawACMAux table rest combos macrosAcc)
    | .pollRateLoop => consAction .pollRateLoop (profileToRawACMAux table rest combos macrosAcc)
    | .wheelLeft => consAction .wheelLeft (profileToRawACMAux table rest combos macrosAcc)
    | .wheelRight => consAction .wheelRight (profileToRawACMAux table rest combos macrosAcc)
    | .wheelUp => consAction .wheelUp (profileToRawACMAux table rest combos macrosAcc)
    | .wheelDown => consAction .wheelDown (profileToRawACMAux table rest combos macrosAcc)
    | .fire interval rep =>
      consAction (.fire interval rep) (profileToRawACMAux table rest combos macrosAcc)
    | .comboAct events =>
      consAction .comboR
        (profileToRawACMAux table rest
          (combos.set i (some (events.map keyEventToRaw))) macrosAcc)
    | .macroAct name =>
      match lookupMacro table name with
      | none => .error "InvalidConversion: Macro does not exist"
      | some events =>
        let macrosAcc1 := macrosAcc ++
          [some { name := name, events := events.map macroEventToRaw }]
        consAction (.macroR (macrosAcc1.length - 1))
          (profileToRawACMAux table rest combos macrosAcc1)

/-- profile_to_raw_actions_combos_macros from raw_profile.rs. -/
def profile_to_raw_actions_combos_macros (p : ProfileU) :
    Except String (List RawActionM × List (Option RawComboM) × List (Option RawMacroM)) :=
  profileToRawACMAux p.macros p.button_actions.enum
    (List.replicate p.button_actions.length none) []

/-- TryFrom a user Profile for RawProfile (raw_profile.rs): range checks,
poll-rate divisor table, dpi_count = max of the collection lengths
filtered to be positive, boolean and ms/10 encodings. -/
def profileToRaw (p : ProfileU) : Except String RawProfileM := do
  if ¬ p.dpis.length < 9 then throw "Value out of range (dpis)"
  if ¬ p.dpi_colors.length < 9 then throw "Value out of range (dpi_colors)"
  if ¬ p.button_actions.length < 17 then throw "Value out of range (button_actions)"
  if ¬ (p.current_dpi_index.getD 0 < 8) then throw "Value out of range (current_dpi_index)"
  if ¬ (p.lift_off_distance.getD 0 < 2) then throw "Value out of range (lift_off_distance)"
  if ¬ (p.debounce_ms.getD 0 < 16) then throw "Value out of range (debounce_ms)"
  if ¬ (p.peak_performance_time.getD 0 < 2551) then
    throw "Value out of range (peak_performance_time)"
  let acm ← profile_to_raw_actions_combos_macros p
  let pollRaw : Option Nat ← match p.poll_rate with
    | some 1000 => pure (some 1)
    | some 500 => pure (some 2)
    | some 250 => pure (some 4)
    | some 125 => pure (some 8)
    | some _ => throw "InvalidConversion: Invalid poll rate value to write to mouse"
    | none => pure none
  let count := max p.dpis.length p.dpi_colors.length
  pure {
    poll_rate := pollRaw
    dpi_count := if count > 0 then some count else none
    current_dpi_index := p.current_dpi_index
    lift_off_distance := p.lift_off_distance
    dpis := p.dpis.map (fun d => some (dpiToRawPair d))
    dpi_colors := p.dpi_colors.map (fun c => some (c.red, c.green, c.blue))
    button_actions := acm.1.map some
    debounce_ms := p.debounce_ms
    motion_sync := p.motion_sync.map (fun b => if b then 1 else 0)
    angle_snapping := p.angle_snapping.map (fun b => if b then 1 else 0)
    ripple_control := p.ripple_control.map (fun b => if b then 1 else 0)
    peak_performance := p.peak_performance.map (fun b => if b then 1 else 0)
    peak_performance_time := p.peak_performance_time.map (fun t => t / 10 % 256)
    high_performance := p.high_performance.map (fun b => if b then 1 else 0)
    combos := acm.2.1
    macros := acm.2.2 }

/-! ### Buffered profile writer

Source: src/device/atlantis/profile_rw.rs (ProfileWriter).  The device is
represented by the list of WriteProfileData requests sent, in order.  The
length computation DATA_END - (address + position) is modelled with Nat
truncated subtraction; every use below stays within DATA_END. -/

/-- No more data at / after this address (profile_rw.rs). -/
def DATA_END : Nat := 0x1b00

/-- ProfileWriter state: pending buffer, origin address, cursor position,
plus the requests sent so far (address, data). -/
structure WState where
  buf : List Nat
  address : Nat
  position : Nat
  sent : List (Nat × List Nat)
deriving DecidableEq, Repr

/-- ProfileWriter::write_report: sends one report of up to 10 buffered
bytes, clipped at DATA_END; returns the written length. -/
def wWriteReport (s : WState) : WState × Nat :=
  let len := min (min (DATA_END - (s.address + s.position)) 10) s.buf.length
  if len = 0 then (s, 0)
  else
    ({ s with
        sent := s.sent ++ [(s.address + s.position, s.buf.take len)],
        position := s.position + len,
        buf := s.buf.drop len }, len)

/-- The flush loop: while the buffer is non-empty, send reports, stopping
early if a report writes zero bytes.  Each successful report removes at
least one byte, so the buffer length bounds the iterations. -/
def wFlushAux : Nat → WState → WState
  | 0, s => s
  | fuel + 1, s =>
    if s.buf.length = 0 then s
    else
      let r := wWriteReport s
      if r.2 = 0 then r.1 else wFlushAux fuel r.1

/-- ProfileWriter::flush. -/
def wFlush (s : WState) : WState := wFlushAux s.buf.length s

/-- ProfileWriter::write: append to the buffer; if at least 10 bytes are
pending, send one report. -/
def wWrite (bytes : List Nat) (s : WState) : WState :=
  let s1 : WState := { s with buf := s.buf ++ bytes }
  if s1.buf.length < 10 then s1 else (wWriteReport s1).1

/-- ProfileWriter seek to an absolute position: flush, then move. -/
def wSeekStart (p : Nat) (s : WState) : WState :=
  let s1 := wFlush s
  { s1 with position := p }

/-- ProfileWriter seek by a (non-negative) relative amount: flush unless
the displacement is zero, then move.  The raw-profile encoder only seeks
forward. -/
def wSeekCur (d : Nat) (s : WState) : WState :=
  let s1 := if d = 0 then s else wFlush s
  { s1 with position := s1.position + d }

/-- Writing one Setting slot of declared length l (raw_profile.rs):
binrw restore_position records the position, writes the serialized content
plus checksum for a present value (nothing for an absent one), seeks back,
then seek_before Current(l) skips the whole slot.  Call sites always have
an empty pending buffer (every preceding field ends in a seek), so the
recorded position is the stream position. -/
def wWriteSetting (l : Nat) (slotBytes : Option (List Nat)) (s : WState) : WState :=
  let p := s.position
  match slotBytes with
  | none => wSeekCur l (wSeekStart p s)
  | some bytes => wSeekCur l (wSeekStart p (wWrite bytes s))

/-- Slot content plus checksum for a u8 header setting. -/
def u8SlotBytes (v : Nat) : List Nat := settingEncode 171 [v]

/-- Slot content plus checksum for a RawDpi (x, y, zero pad byte). -/
def dpiSlotBytes (d : Nat × Nat) : List Nat := settingEncode 171 [d.1, d.2, 0]

/-- Slot content plus checksum for a RawColor. -/
def colorSlotBytes (c : Nat × Nat × Nat) : List Nat :=
  settingEncode 171 [c.1, c.2.1, c.2.2]

/-- Slot content plus checksum for a PaddedRawAction. -/
def actionSlotBytes (a : RawActionM) : List Nat :=
  settingEncode 171 (actionPadded a)

/-- Slot content plus checksum for a RawCombo. -/
def comboSlotBytes (c : RawComboM) : List Nat := settingEncode 171 (comboBytes c)

/-- Slot content plus checksum for a RawMacro (Sum181). -/
def macroSlotBytes (m : RawMacroM) : List Nat :=
  settingEncode 181 (macroSerBytes m)

/-- Serializing a RawProfile through a fresh ProfileWriter
(RawProfile::write_to_mouse): the binrw write asserts, then the field
sequence with its seek_before offsets, then the drop-flush.  Field order
and offsets follow the struct declaration in raw_profile.rs. -/
def writeRawProfileM (numButtons : Nat) (r : RawProfileM) (s : WState) :
    Except String WState :=
  if ¬ numButtons ≤ 16 then .error "pre_assert: num_buttons" else
  if ¬ (1 ≤ r.dpi_count.getD 1 ∧ r.dpi_count.getD 1 ≤ 8) then
    .error "assert: dpi_count" else
  if ¬ r.current_dpi_index.getD 0 < 8 then .error "assert: current_dpi_index" else
  if ¬ r.dpis.length ≤ 8 then .error "assert: dpis" else
  if ¬ r.dpi_colors.length ≤ 8 then .error "assert: dpi_colors" else
  if ¬ r.button_actions.length ≤ numButtons then .error "assert: button_actions" else
  if ¬ r.combos.length ≤ numButtons then .error "assert: combos" else
  if ¬ r.macros.length ≤ numButtons then .error "assert: macros" else
  let s := wWriteSetting 2 (r.poll_rate.map u8SlotBytes) s
  let s := wWriteSetting 2 (r.dpi_count.map u8SlotBytes) s
  let s := wWriteSetting 2 (r.current_dpi_index.map u8SlotBytes) s
  let s := wWriteSetting 2 (r.lift_off_distance.map u8SlotBytes) (wSeekCur 4 s)
  let s := wSeekStart 12 s
  let s := r.dpis.foldl (fun s d => wWriteSetting 4 (d.map dpiSlotBytes) s) s
  let s := wSeekStart 44 s
  let s := r.dpi_colors.foldl (fun s c => wWriteSetting 4 (c.map colorSlotBytes) s) s
  let s := wSeekStart 96 s
  let s := r.button_actions.foldl
    (fun s a => wWriteSetting 4 (a.map actionSlotBytes) s) s
  let s := wWriteSetting 2 (r.debounce_ms.map u8SlotBytes) (wSeekStart 169 s)
  let s := wWriteSetting 2 (r.motion_sync.map u8SlotBytes) s
  let s := wWriteSetting 2 (r.angle_snapping.map u8SlotBytes) (wSeekCur 2 s)
  let s := wWriteSetting 2 (r.ripple_control.map u8SlotBytes) s
  let s := wWriteSetting 2 (r.peak_performance.map u8SlotBytes) (wSeekCur 2 s)
  let s := wWriteSetting 2 (r.peak_performance_time.map u8SlotBytes) s
  let s := wWriteSetting 2 (r.high_performance.map u8SlotBytes) s
  let s := wSeekStart 0x0100 s
  let s := r.combos.foldl (fun s c => wWriteSetting 32 (c.map comboSlotBytes) s) s
  let s := wSeekStart 0x0300 s
  let s := r.macros.foldl (fun s m => wWriteSetting 384 (m.map macroSlotBytes) s) s
  .ok (wFlush s)

/-- A fresh ProfileWriter at origin 0 (write_to_mouse). -/
def w0 : WState := { buf := [], address := 0, position := 0, sent := [] }

/-- A profile whose only populated field is poll_rate = 500 Hz. -/
def pollRate500Profile : ProfileU := { poll_rate := some 500 }

/-- A default user profile: every option absent, every collection empty. -/
def defaultProfile : ProfileU := {}

/-- All settings of a raw profile are absent (every Setting slot none and
every collection empty). -/
def RawProfileM.allAbsent (r : RawProfileM) : Bool :=
  r.poll_rate.isNone && r.dpi_count.isNone && r.current_dpi_index.isNone &&
  r.lift_off_distance.isNone && r.dpis.isEmpty && r.dpi_colors.isEmpty &&
  r.button_actions.isEmpty && r.debounce_ms.isNone && r.motion_sync.isNone &&
  r.angle_snapping.isNone && r.ripple_control.isNone &&
  r.peak_performance.isNone && r.peak_performance_time.isNone &&
  r.high_performance.isNone && r.combos.isEmpty && r.macros.isEmpty

/-! ### Raw to user translation

Source: src/device/atlantis/raw_profile.rs, raw_profile_to_actions_macros
and TryFrom RawProfile for Profile. -/

/-- Short-circuiting element-wise conversion (collect over Result). -/
def listMapExcept (f : α → Except String β) : List α → Except String (List β)
  | [] => .ok []
  | a :: rest =>
    match f a with
    | .error e => .error e
    | .ok b =>
      match listMapExcept f rest with
      | .error e => .error e
      | .ok bs => .ok (b :: bs)

/-- Prepends a successfully converted action to the result pair. -/
def consActionU (act : ActionU) :
    Except String (List ActionU × List (String × List MacroEventU)) →
    Except String (List ActionU × List (String × List MacroEventU))
  | .ok (as, ms) => .ok (act :: as, ms)
  | .error e => .error e

/-- The enumerated traversal inside raw_profile_to_actions_macros.  A
Combo action indexes combos by button position (a Rust slice index, which
panics out of range; absent slot is an InvalidConversion error).  A Macro
action looks up the macro slot by stored index, inserts the decoded
events under the slot's stored name into the macros map, and produces
Action::Macro with name = String::new() — the empty string, exactly as
the source does. -/
def rawToAMAux (combos : List (Option RawComboM)) (macrosRaw : List (Option RawMacroM)) :
    List (Nat × Option RawActionM) → List (String × List MacroEventU) →
    Except String (List ActionU × List (String × List MacroEventU))
  | [], acc => .ok ([], acc)
  | (i, oact) :: rest, acc =>
    match oact with
    | none => .error "panic: unwrap of absent button action"
    | some act =>
      match act with
      | .disabled => consActionU .disabled (rawToAMAux combos macrosRaw rest acc)
      | .button id =>
        match id with
        | 1 => consActionU .leftClick (rawToAMAux combos macrosRaw rest acc)
        | 2 => consActionU .rightClick (rawToAMAux combos macrosRaw rest acc)
        | 4 => consActionU .middleClick (rawToAMAux combos macrosRaw rest acc)
        | 8 => consActionU .backClick (rawToAMAux combos macrosRaw rest acc)
        | 16 => consActionU .forwardClick (rawToAMAux combos macrosRaw rest acc)
        | _ => .error "InvalidConversion: Invalid button ID from raw"
      | .dpiLoop => consActionU .dpiLoop (rawToAMAux combos macrosRaw rest acc)
      | .dpiUp => consActionU .dpiUp (rawToAMAux combos macrosRaw rest acc)
      | .dpiDown => consActionU .dpiDown (rawToAMAux combos macrosRaw rest acc)
      | .wheelLeft => consActionU .wheelLeft (rawToAMAux combos macrosRaw rest acc)
      | .wheelRight => consActionU .wheelRight (rawToAMAux combos macrosRaw rest acc)
      | .fire interval rep =>
        consActionU (.fire interval rep) (rawToAMAux combos macrosRaw rest acc)
      | .comboR =>
        match combos.get? i with
        | none => .error "panic: combo index out of range"
        | some none => .error "InvalidConversion: Raw combo does not exist"
        | some (some evs) =>
          match listMapExcept rawKeyEventTryInto evs with
          | .error e => .error e
          | .ok uevs => consActionU (.comboAct uevs) (rawToAMAux combos macrosRaw rest acc)
      | .macroR idx =>
        match (macrosRaw.get? idx).bind (fun o => o) with
        | none => .error "InvalidConversion: Raw macro does not exist"
        | some m =>
          match listMapExcept rawMacroEventTryInto m.events with
          | .error e => .error e
          | .ok uevents =>
            consActionU (.macroAct "")
              (rawToAMAux combos macrosRaw rest (assocInsert m.name uevents acc))
      | .pollRateLoop => consActionU .pollRateLoop (rawToAMAux combos macrosRaw rest acc)
      | .dpiLock d =>
        consActionU (.dpiLock (dpi_from_raw d)) (rawToAMAux combos macrosRaw rest acc)
      | .wheelUp => consActionU .wheelUp (rawToAMAux combos macrosRaw rest acc)
      | .wheelDown => consActionU .wheelDown (rawToAMAux combos macrosRaw rest acc)

/-- raw_profile_to_actions_macros from raw_profile.rs. -/
def raw_profile_to_actions_macros (r : RawProfileM) :
    Except String (List ActionU × List (String × List MacroEventU)) :=
  rawToAMAux r.combos r.macros r.button_actions.enum []

/-- TryFrom RawProfile for a user Profile (raw_profile.rs): poll-rate
reverse table, booleans decoded as byte-not-zero, peak performance time
times 10, dpis and colors unwrapped with expect("Unreachable") — modelled
as an error that c9 shows unreachable after a successful read. -/
def rawToProfile (r : RawProfileM) : Except String ProfileU := do
  let am ← raw_profile_to_actions_macros r
  let pollU : Option Nat ← match r.poll_rate with
    | some 1 => pure (some 1000)
    | some 2 => pure (some 500)
    | some 4 => pure (some 250)
    | some 8 => pure (some 125)
    | some _ => throw "InvalidConversion: Invalid raw poll rate value from mouse"
    | none => pure none
  let dpis ← listMapExcept (fun o =>
    match o with
    | some d => .ok (dpiFromRawPair d)
    | none => .error "panic: Unreachable") r.dpis
  let colors ← listMapExcept (fun o =>
    match o with
    | some c => .ok (ColorU.mk c.1 c.2.1 c.2.2)
    | none => .error "panic: Unreachable") r.dpi_colors
  pure {
    poll_rate := pollU
    current_dpi_index := r.current_dpi_index
    lift_off_distance := r.lift_off_distance
    dpis := dpis
    dpi_colors := colors
    debounce_ms := r.debounce_ms
    motion_sync := r.motion_sync.map (fun b => b != 0)
    angle_snapping := r.angle_snapping.map (fun b => b != 0)
    ripple_control := r.ripple_control.map (fun b => b != 0)
    peak_performance := r.peak_performance.map (fun b => b != 0)
    peak_performance_time := r.peak_performance_time.map (fun t => t * 10)
    high_performance := r.high_performance.map (fun b => b != 0)
    button_actions := am.1
    macros := am.2 }

/-- A user profile with one macro-typed button action whose macro exists. -/
def c4Profile : ProfileU :=
  { button_actions := [.macroAct "x"], macros := [("x", [])] }

/-! ### Mouse facade

Source: src/device/atlantis.rs (Atlantis::profile / Atlantis::set_profile).
The device's active-profile register is the state; the inner raw read,
conversion and write results are parameters (they involve the HID
transport).  Reading the active index is modelled as always succeeding
with the current state value. -/

/-- Device state: the active profile index register. -/
structure DevSt where
  active : Nat
deriving DecidableEq, Repr

/-- Atlantis::set_active_profile_index: indices above 3 are rejected. -/
def setActiveIndex (i : Nat) (_s : DevSt) : Except String DevSt :=
  if i < 4 then .ok { active := i }
  else .error "InvalidConversion: Profile index out of range (0-3)"

/-- Atlantis::profile: read active index, switch if different, read the
raw profile (an early return on error — before any restore), convert
(stored as a Result, not early-returned), switch back, return. -/
def facadeProfile {α β : Type} (innerRead : Except String α)
    (conv : α → Except String β) (index : Nat) (s : DevSt) :
    Except String β × DevSt :=
  let a := s.active
  if a ≠ index then
    match setActiveIndex index s with
    | .error e => (.error e, s)
    | .ok s1 =>
      match innerRead with
      | .error e => (.error e, s1)
      | .ok raw =>
        let profile := conv raw
        match setActiveIndex a s1 with
        | .error e => (.error e, s1)
        | .ok s2 => (profile, s2)
  else
    match innerRead with
    | .error e => (.error e, s)
    | .ok raw => (conv raw, s)

/-- Atlantis::set_profile: read active index, switch if different, convert
the (possibly poll-rate-clamped) profile and write it — both early
returns on error, before any restore — then switch back. -/
def facadeSetProfile {α : Type} (convRes : Except String α)
    (writeRes : α → Except String Unit) (index : Nat) (s : DevSt) :
    Except String Unit × DevSt :=
  let a := s.active
  if a ≠ index then
    match setActiveIndex index s with
    | .error e => (.error e, s)
    | .ok s1 =>
      match convRes with
      | .error e => (.error e, s1)
      | .ok raw =>
        match writeRes raw with
        | .error e => (.error e, s1)
        | .ok _ =>
          match setActiveIndex a s1 with
          | .error e => (.error e, s1)
          | .ok s2 => (.ok (), s2)
  else
    match convRes with
    | .error e => (.error e, s)
    | .ok raw =>
      match writeRes raw with
      | .error e => (.error e, s)
      | .ok _ => (.ok (), s)

/-! ### Transport response loop

Source: src/device/atlantis/report.rs, make_request.  The device's
successive read outcomes are a stream indexed by read number: a parsed
report with its command byte, an UnexpectedReport failure (report-ID
byte not 8), or any other failure (I/O, command parse, bad packet
checksum), which read_report surfaces as an error value. -/

/-- Outcome of one read_report call. -/
inductive ReadOutcome where
  | okR (cmd : Nat)
  | errUnexpected
  | errOther (e : Nat)
deriving DecidableEq, Repr

/-- Errors surfaced by make_request. -/
inductive MErr where
  | unexpectedReport
  | noResponse
  | other (e : Nat)
deriving DecidableEq, Repr

/-- The make_request read loop: up to fuel reads starting at read number
k.  A parsed report with the request's command is returned; a parsed
report with another command is skipped; Err(UnexpectedReport) is
skipped; any other error is returned at once; exhausted fuel is
NoResponse. -/
def makeRequestFrom (reqCmd : Nat) (dev : Nat → ReadOutcome) :
    Nat → Nat → Except MErr Nat
  | 0, _ => .error .noResponse
  | fuel + 1, k =>
    match dev k with
    | .okR c => if c = reqCmd then .ok c else makeRequestFrom reqCmd dev fuel (k + 1)
    | .errUnexpected => makeRequestFrom reqCmd dev fuel (k + 1)
    | .errOther e => .error (.other e)

/-- make_request: three candidate reads. -/
def makeRequest (reqCmd : Nat) (dev : Nat → ReadOutcome) : Except MErr Nat :=
  makeRequestFrom reqCmd dev 3 0

/-- A read outcome the loop skips: a report with a non-matching command,
or an UnexpectedReport failure. -/
def skippable (reqCmd : Nat) : ReadOutcome → Bool
  | .okR c => if c = reqCmd then false else true
  | .errUnexpected => true
  | .errOther _ => false

/-- Read stream whose first report has a wrong report ID and whose second
is a matching response. -/
def c6Dev : Nat → ReadOutcome := fun i => if i = 0 then .errUnexpected else .okR 8

/-- Read stream of nothing but wrong-report-ID reads. -/
def c6DevA : Nat → ReadOutcome := fun _ => .errUnexpected

/-- Read stream with a wrong-report-ID read, then a hard failure. -/
def c6DevB : Nat → ReadOutcome := fun i =>
  if i = 0 then .errUnexpected else .errOther 7

/-! ### Buffered profile reader

Source: src/device/atlantis/profile_rw.rs (ProfileReader).  The device is
an oracle mapping a (address, length) ReadProfileData request to the
returned data bytes.  The two potential panics in read are modelled
explicitly: the usize subtraction DATA_END - (address + position)
underflowing, and clone_from_slice with mismatched lengths (fewer
buffered bytes than the destination slice). -/

/-- ProfileReader state: buffered bytes, origin address, cursor position. -/
structure RState where
  buf : List Nat
  address : Nat
  position : Nat
deriving DecidableEq, Repr

/-- Panics that ProfileReader::read can hit. -/
inductive RFail where
  | underflow
  | mismatch
deriving DecidableEq, Repr

/-- The copy step of ProfileReader::read: clone_bytes =
min(dest.len(), buf.len()); clone_from_slice panics unless the
destination length equals clone_bytes; otherwise the buffered bytes are
consumed and the position advances. -/
def profileReadCopy (destLen : Nat) (s : RState) : Except RFail (Nat × RState) :=
  let cloneBytes := min destLen s.buf.length
  if cloneBytes < destLen then .error .mismatch
  else .ok (cloneBytes,
    { s with buf := s.buf.drop cloneBytes, position := s.position + cloneBytes })

/-- ProfileReader::read for one call: refill the buffer with a
ReadProfileData request of min(10, DATA_END - (address + position)) bytes
when it is empty (returning Ok(0) at the data end), then copy to the
destination.  The second component records the issued request
(address, length), if any. -/
def profileRead (dev : Nat → Nat → List Nat) (destLen : Nat) (s : RState) :
    Except RFail (Nat × RState) × Option (Nat × Nat) :=
  if s.buf.isEmpty then
    if DATA_END < s.address + s.position then (.error .underflow, none)
    else
      let len := min (DATA_END - (s.address + s.position)) 10
      if len = 0 then (.ok (0, s), none)
      else
        let s1 : RState := { s with buf := dev (s.address + s.position) len }
        (profileReadCopy destLen s1, some (s.address + s.position, len))
  else (profileReadCopy destLen s, none)

/-- ProfileReader seek from Start: clears the buffer and sets the
position, with no upper-bound check. -/
def profileReaderSeekStart (p : Nat) (s : RState) : RState :=
  { s with buf := [], position := p }

/-- A device oracle returning the requested number of zero bytes. -/
def c10Dev : Nat → Nat → List Nat := fun _ l => List.replicate l 0

/-! ### Header decode over a memory image

Source: src/device/atlantis/raw_profile.rs (the binrw read of RawProfile)
and src/device/checksum.rs (Stream / Append8).  The profile memory is a
function from address to byte.  Header slots are read strictly: the
Append8 assert turns an invalid checksum into a binrw error that fails
the whole read (Option none); on success the Setting map wraps the value
in Some.  The checksum Stream hashes each byte position at most once
(its high-water mark), so bytes read by failed enum-magic attempts are
still hashed while pad bytes skipped by seeking are not. -/

/-- Strict decode of a 2-byte u8 Setting slot: value byte then checksum
byte, validated with Sum171; an invalid checksum is a read error. -/
def decodeSetting2 (img : Nat → Nat) (pos : Nat) : Option (Option Nat) :=
  if sumValid 171 [img pos, img (pos + 1)] then some (some (img pos)) else none

/-- Strict decode of a 4-byte RawDpi slot: dpi_x, dpi_y are read and
hashed, the pad byte is skipped by seeking (not hashed), the checksum
byte at offset 3 is read and hashed. -/
def decodeDpiSlot (img : Nat → Nat) (pos : Nat) : Option (Option (Nat × Nat)) :=
  if sumValid 171 [img pos, img (pos + 1), img (pos + 3)] then
    some (some (img pos, img (pos + 1)))
  else none

/-- Strict decode of a 4-byte RawColor slot: three color bytes, checksum. -/
def decodeColorSlot (img : Nat → Nat) (pos : Nat) :
    Option (Option (Nat × Nat × Nat)) :=
  if sumValid 171 [img pos, img (pos + 1), img (pos + 2), img (pos + 3)] then
    some (some (img pos, img (pos + 1), img (pos + 2)))
  else none

/-- RawAction parse by binrw magic dispatch, returning the action and the
bytes the checksum Stream has hashed when the variant succeeds.  Variants
are tried in declaration order with rewinds; the u16-magic variants
(DpiLoop .. WheelRight) read two bytes during their failed attempts, so
for every first byte except 0 (Disabled, matched before any u16 attempt)
the second byte is hashed too, and Fire (first byte 4) also hashes its
two field bytes. -/
def parseRawAction (img : Nat → Nat) (pos : Nat) : Option (RawActionM × List Nat) :=
  match img pos with
  | 0 => some (.disabled, [img pos])
  | 1 => some (.button (img (pos + 1)), [img pos, img (pos + 1)])
  | 2 =>
    match img (pos + 1) with
    | 1 => some (.dpiLoop, [img pos, img (pos + 1)])
    | 2 => some (.dpiUp, [img pos, img (pos + 1)])
    | 3 => some (.dpiDown, [img pos, img (pos + 1)])
    | _ => none
  | 3 =>
    match img (pos + 1) with
    | 1 => some (.wheelLeft, [img pos, img (pos + 1)])
    | 2 => some (.wheelRight, [img pos, img (pos + 1)])
    | _ => none
  | 4 => some (.fire (img (pos + 1)) (img (pos + 2)),
      [img pos, img (pos + 1), img (pos + 2)])
  | 5 => some (.comboR, [img pos, img (pos + 1)])
  | 6 => some (.macroR (img (pos + 1)), [img pos, img (pos + 1)])
  | 7 => some (.pollRateLoop, [img pos, img (pos + 1)])
  | 10 => some (.dpiLock (img (pos + 1)), [img pos, img (pos + 1)])
  | 11 =>
    match img (pos + 1) with
    | 1 => some (.wheelUp, [img pos, img (pos + 1)])
    | 2 => some (.wheelDown, [img pos, img (pos + 1)])
    | _ => none
  | _ => none

/-- Strict decode of a 4-byte PaddedRawAction slot: parse the action (a
parse failure fails the read), then validate the hashed bytes together
with the checksum byte at offset 3 (pad bytes skipped by pad_size_to are
not hashed). -/
def decodeActionSlot (img : Nat → Nat) (pos : Nat) : Option (Option RawActionM) :=
  (parseRawAction img pos).bind (fun pr =>
    if sumValid 171 (pr.2 ++ [img (pos + 3)]) then some (some pr.1) else none)

/-- Short-circuiting decode of a list of slots. -/
def mapOption {α β : Type} (f : α → Option β) : List α → Option (List β)
  | [] => some []
  | a :: rest =>
    match f a with
    | none => none
    | some b => (mapOption f rest).map (fun bs => b :: bs)

/-- RawDirection parse from its little-endian u16 value. -/
def parseDirection : Nat → Option RawDirectionM
  | 1 => some .left
  | 2 => some .right
  | 4 => some .middle
  | 8 => some .back
  | 16 => some .forward
  | _ => none

/-- RawKeyEvent parse: tag byte then little-endian u16 key id. -/
def parseRawKeyEvent (img : Nat → Nat) (pos : Nat) : Option RawKeyEventM :=
  let u16le := img (pos + 1) + 256 * img (pos + 2)
  match img pos with
  | 0x80 => some (.pressModifier u16le)
  | 0x81 => some (.pressHid u16le)
  | 0x82 => some (.pressConsumer u16le)
  | 0x84 => (parseDirection u16le).map .pressDirection
  | 0x40 => some (.releaseModifier u16le)
  | 0x41 => some (.releaseHid u16le)
  | 0x42 => some (.releaseConsumer u16le)
  | 0x44 => (parseDirection u16le).map .releaseDirection
  | _ => none

/-- Parse count RawKeyEvents of 3 bytes each. -/
def parseEvents (img : Nat → Nat) : Nat → Nat → Option (List RawKeyEventM)
  | _, 0 => some []
  | pos, n + 1 =>
    match parseRawKeyEvent img pos with
    | none => none
    | some e => (parseEvents img (pos + 3) n).map (fun rest => e :: rest)

/-- Bare RawCombo parse (the tolerant per-slot read in read_from_mouse
reads the combo without any checksum wrapper): event count byte, then the
events, then the assert events.len() <= 6. -/
def parseRawCombo (img : Nat → Nat) (pos : Nat) : Option RawComboM :=
  match parseEvents img (pos + 1) (img pos) with
  | none => none
  | some evs => if evs.length ≤ 6 then some evs else none

/-- Parse count RawMacroEvents of 5 bytes each (3-byte key event plus
big-endian u16 delay). -/
def parseMacroEvents (img : Nat → Nat) : Nat → Nat → Option (List RawMacroEventM)
  | _, 0 => some []
  | pos, n + 1 =>
    match parseRawKeyEvent img pos with
    | none => none
    | some e =>
      (parseMacroEvents img (pos + 5) n).map
        (fun rest => { keyEvent := e, delay := 256 * img (pos + 3) + img (pos + 4) } :: rest)

/-- Bare RawMacro parse (tolerant, no checksum): name length (at most 30),
name bytes zero-padded to 30 (modelled as ASCII characters), event count
(at most 70), then the events. -/
def parseRawMacro (img : Nat → Nat) (pos : Nat) : Option RawMacroM :=
  let nameLen := img pos
  if nameLen ≤ 30 then
    match parseMacroEvents img (pos + 32) (img (pos + 31)) with
    | none => none
    | some evs =>
      if evs.length ≤ 70 then
        some { name := String.mk (((List.range nameLen).map
                 (fun i => img (pos + 1 + i))).map Char.ofNat),
               events := evs }
      else none
  else none

/-- The strict binrw read of the RawProfile header (read_be_args): the
pre_assert on num_buttons, then every header slot in declaration order at
its seek_before offset, dpis and dpi_colors sized by the read dpi_count
(the unwrap is the monadic bind on the already-decoded Option), buttons
sized by num_buttons.  combos and macros are br(ignore)d here. -/
def guardO (c : Prop) [Decidable c] : Option Unit := if c then some () else none

/-- The trailing run of u8 header slots read in declaration order:
debounce_ms (0xA9), motion_sync (0xAB), angle_snapping (0xAF, after a
2-byte gap), ripple_control (0xB1), peak_performance (0xB5, after a
2-byte gap), peak_performance_time (0xB7), high_performance (0xB9). -/
def decodeHeaderTail (img : Nat → Nat) :
    Option (Option Nat × Option Nat × Option Nat × Option Nat × Option Nat ×
      Option Nat × Option Nat) := do
  let de ← decodeSetting2 img 169
  let ms ← decodeSetting2 img 171
  let asn ← decodeSetting2 img 175
  let rc ← decodeSetting2 img 177
  let pp ← decodeSetting2 img 181
  let ppt ← decodeSetting2 img 183
  let hp ← decodeSetting2 img 185
  pure (de, ms, asn, rc, pp, ppt, hp)

def decodeHeader (numButtons : Nat) (img : Nat → Nat) : Option RawProfileM := do
  let _ ← guardO (numButtons ≤ 16)
  let pr ← decodeSetting2 img 0
  let dc ← decodeSetting2 img 2
  let _ ← guardO (1 ≤ dc.getD 1 ∧ dc.getD 1 ≤ 8)
  let ci ← decodeSetting2 img 4
  let _ ← guardO (ci.getD 0 < 8)
  let lo ← decodeSetting2 img 10
  let count ← dc
  let dpis ← mapOption (fun i => decodeDpiSlot img (12 + 4 * i)) (List.range count)
  let colors ← mapOption (fun i => decodeColorSlot img (44 + 4 * i)) (List.range count)
  let actions ← mapOption (fun i => decodeActionSlot img (96 + 4 * i))
    (List.range numButtons)
  let t ← decodeHeaderTail img
  pure { poll_rate := pr, dpi_count := dc, current_dpi_index := ci,
         lift_off_distance := lo, dpis := dpis, dpi_colors := colors,
         button_actions := actions, debounce_ms := t.1, motion_sync := t.2.1,
         angle_snapping := t.2.2.1, ripple_control := t.2.2.2.1,
         peak_performance := t.2.2.2.2.1,
         peak_performance_time := t.2.2.2.2.2.1,
         high_performance := t.2.2.2.2.2.2,
         combos := [], macros := [] }

/-- RawProfile::read_from_mouse: strict header read, then one tolerant
combo and macro read per button (read errors become absent slots via
.ok(), never failing the profile read). -/
def readFromMouseM (numButtons : Nat) (img : Nat → Nat) : Option RawProfileM := do
  let hdr ← decodeHeader numButtons img
  pure { hdr with
    combos := (List.range numButtons).map
      (fun i => parseRawCombo img (0x0100 + 32 * i)),
    macros := (List.range numButtons).map
      (fun i => parseRawMacro img (0x0300 + 384 * i)) }

/-- A header image whose poll_rate checksum byte (offset 0x01) is invalid
while every other header slot validates: dpi_count value 1, all other
values 0, valid checksum bytes elsewhere. -/
def c3Img : Nat → Nat := fun n =>
  if n = 2 then 1 else
  if n = 3 then 84 else
  if n = 5 ∨ n = 11 ∨ n = 15 ∨ n = 47 ∨ n = 99 ∨ n = 103 ∨ n = 107 ∨
     n = 111 ∨ n = 115 ∨ n = 119 ∨ n = 170 ∨ n = 172 ∨ n = 176 ∨
     n = 178 ∨ n = 182 ∨ n = 184 ∨ n = 186 then 85
  else 0

/-- The same image with a valid poll_rate slot (value 2, checksum 83). -/
def c9Img : Nat → Nat := fun n =>
  if n = 0 then 2 else if n = 1 then 83 else c3Img n

/-- The header c9Img decodes to. -/
def c9Hdr : RawProfileM :=
  { poll_rate := some 2, dpi_count := some 1, current_dpi_index := some 0,
    lift_off_distance := some 0, dpis := [some (0, 0)],
    dpi_colors := [some (0, 0, 0)],
    button_actions := List.replicate 6 (some .disabled),
    debounce_ms := some 0, motion_sync := some 0, angle_snapping := some 0,
    ripple_control := some 0, peak_performance := some 0,
    peak_performance_time := some 0, high_performance := some 0,
    combos := [], macros := [] }

/-! ### Arithmetic bridge lemmas -/

theorem foldl_wsub_lt (bytes : List Nat) (s : Nat) (hs : s < 256) :
    bytes.foldl wsub s < 256 := by
  induction bytes generalizing s with
  | nil => exact hs
  | cons b bs ih => exact ih _ (Nat.mod_lt _ (by omega))

theorem foldl_wsub_cast (bytes : List Nat) (s : Nat)
    (hb : ∀ b ∈ bytes, b < 256) :
    ((bytes.foldl wsub s : Nat) : ZMod 256) = (s : ZMod 256) - bytes.sum := by
  induction bytes generalizing s with
  | nil => simp
  | cons b bs ih =>
    have hbb : b < 256 := hb b (List.mem_cons_self b bs)
    have hrest : ∀ x ∈ bs, x < 256 := fun x hx => hb x (List.mem_cons_of_mem _ hx)
    rw [List.foldl_cons, ih _ hrest]
    have hw : ((wsub s b : Nat) : ZMod 256) = (s : ZMod 256) - b := by
      unfold wsub
      rw [Nat.mod_eq_of_lt hbb, ZMod.natCast_mod,
        Nat.cast_sub (by omega : b ≤ s + 256), Nat.cast_add,
        show ((256 : Nat) : ZMod 256) = 0 from ZMod.natCast_self 256]
      ring
    rw [hw, List.sum_cons]
    push_cast
    ring

theorem foldl_add_lt (bytes : List Nat) (s : Nat) (hs : s < 256) :
    bytes.foldl (fun s b => (s + b) % 256) s < 256 := by
  induction bytes generalizing s with
  | nil => exact hs
  | cons b bs ih => exact ih _ (Nat.mod_lt _ (by omega))

theorem foldl_add_eq (bytes : List Nat) (s : Nat) (hs : s < 256) :
    bytes.foldl (fun s b => (s + b) % 256) s = (s + bytes.sum) % 256 := by
  induction bytes generalizing s with
  | nil => simp [Nat.mod_eq_of_lt hs]
  | cons b bs ih =>
    rw [List.foldl_cons, ih _ (Nat.mod_lt _ (by omega)), List.sum_cons,
      Nat.mod_add_mod, Nat.add_assoc]

theorem sumAdd_lt (init : Nat) (bytes : List Nat) : sumAdd init bytes < 256 :=
  foldl_add_lt _ _ (Nat.mod_lt _ (by omega))

theorem sumAdd_append (init : Nat) (p q : List Nat) :
    sumAdd init (p ++ q) = (sumAdd init p + q.sum) % 256 := by
  unfold sumAdd
  rw [List.foldl_append]
  exact foldl_add_eq _ _ (sumAdd_lt init p)

theorem cast_inj_of_lt {a b : Nat} (ha : a < 256) (hb : b < 256)
    (h : (a : ZMod 256) = b) : a = b := by
  have h1 : (ZMod.val (a : ZMod 256)) = a := ZMod.val_cast_of_lt ha
  have h2 : (ZMod.val (b : ZMod 256)) = b := ZMod.val_cast_of_lt hb
  rw [h] at h1
  omega

theorem compute_checksum_lt (bytes : List Nat) : compute_checksum bytes < 256 :=
  foldl_wsub_lt _ _ (by omega)

theorem compute_checksum_cast (bytes : List Nat) (hb : ∀ b ∈ bytes, b < 256) :
    ((compute_checksum bytes : Nat) : ZMod 256) = 85 - bytes.sum :=
  foldl_wsub_cast bytes 85 hb

/-- The packet checksum accumulator is zero exactly when the sum of the
hashed bytes is congruent to 85 mod 256. -/
theorem compute_checksum_eq_zero_iff (bytes : List Nat)
    (hb : ∀ b ∈ bytes, b < 256) :
    compute_checksum bytes = 0 ↔ bytes.sum % 256 = 85 := by
  constructor
  · intro h
    have hc := compute_checksum_cast bytes hb
    rw [h] at hc
    have hsum : ((bytes.sum % 256 : Nat) : ZMod 256) = ((85 : Nat) : ZMod 256) := by
      rw [ZMod.natCast_mod]
      have : (bytes.sum : ZMod 256) = 85 := by
        have := hc.symm
        linear_combination -this
      rw [this]
      norm_num
    exact cast_inj_of_lt (Nat.mod_lt _ (by omega)) (by omega) hsum
  · intro h
    have hc := compute_checksum_cast bytes hb
    have hsum : (bytes.sum : ZMod 256) = 85 := by
      have : ((bytes.sum % 256 : Nat) : ZMod 256) = (bytes.sum : ZMod 256) :=
        ZMod.natCast_mod _ _
      rw [h] at this
      rw [← this]
      norm_num
    rw [hsum] at hc
    simp only [sub_self] at hc
    exact cast_inj_of_lt (compute_checksum_lt bytes) (by omega) (by simpa using hc)

theorem readHashedBytes_lt (bytes : List Nat) (hb : ∀ b ∈ bytes, b < 256) :
    ∀ b ∈ readHashedBytes bytes, b < 256 := by
  intro b hbm
  unfold readHashedBytes at hbm
  rcases List.mem_append.mp hbm with h | h
  · rcases List.mem_append.mp h with h1 | h1
    · exact hb b (List.take_subset _ _ h1)
    · exact hb b (List.drop_subset _ _ (List.take_subset _ _ h1))
  · rcases List.mem_singleton.mp h with rfl
    rcases Nat.lt_or_ge 16 bytes.length with h16 | h16
    · rw [List.getD_eq_getElem _ _ h16]
      exact hb _ (List.getElem_mem h16)
    · rw [List.getD_eq_default _ _ h16]
      omega

/-- Inbound validation accepts exactly when the hashed (actually read)
bytes sum to 85 mod 256. -/
theorem reportChecksumValid_iff (bytes : List Nat) (hb : ∀ b ∈ bytes, b < 256) :
    reportChecksumValid bytes = true ↔ (readHashedBytes bytes).sum % 256 = 85 := by
  unfold reportChecksumValid
  rw [beq_iff_eq]
  exact compute_checksum_eq_zero_iff _ (readHashedBytes_lt bytes hb)

theorem bytes16_lt (r : StandardReport) (herr : r.error < 256)
    (hdata : ∀ b ∈ r.data, b < 256) (hlen : r.data.length ≤ 10) :
    ∀ b ∈ r.bytes16, b < 256 := by
  intro b hb
  unfold StandardReport.bytes16 at hb
  have hcmd : r.cmd.toByte < 256 := by cases r.cmd <;> simp [Command.toByte]
  have hdiv : r.address % 65536 / 256 < 256 := by
    have : r.address % 65536 < 65536 := Nat.mod_lt _ (by omega)
    omega
  rcases List.mem_append.mp hb with h | h
  · rcases List.mem_append.mp h with h1 | h1
    · simp only [List.mem_cons, List.not_mem_nil, or_false] at h1
      rcases h1 with rfl | rfl | rfl | rfl | rfl | rfl
      · omega
      · exact hcmd
      · omega
      · exact hdiv
      · exact Nat.mod_lt _ (by omega)
      · omega
    · exact hdata b h1
  · rcases List.mem_replicate.mp h with ⟨-, rfl⟩
    omega

/-- Claim C1 counterexample: the serialized read-active-profile request has
all-bytes sum 85 mod 256, not 0, yet passes checksum validation; an
all-zero 17-byte report has sum 0 mod 256 yet is rejected; and because
the read seeks over the padding without hashing it, validation does not
even depend on the all-bytes sum: a report with a nonzero pad byte and
all-bytes sum 184 is accepted, while one with all-bytes sum 85 is
rejected. -/
theorem c1_counterexample :
    readActiveProfileReq.serialize.sum % 256 = 85 ∧ (85 : Nat) ≠ 0 ∧
    reportChecksumValid readActiveProfileReq.serialize = true ∧
    (List.replicate 17 0).sum % 256 = 0 ∧
    reportChecksumValid (List.replicate 17 0) = false ∧
    reportChecksumValid padReportA = true ∧ padReportA.sum % 256 = 184 ∧
    reportChecksumValid padReportB = false ∧ padReportB.sum % 256 = 85 := by decide

/-- Claim C1 (amended): for every outbound StandardReport request the sum
of all 17 serialized bytes is congruent to 85 mod 256 (on write the
padding is emitted as zero bytes and hashed); inbound checksum validation
hashes only the bytes actually read — the six bytes from report ID
through data length, the data-length data bytes, and the trailing
checksum byte, the padding being seeked over — and accepts exactly when
the sum of those hashed bytes is congruent to 85 mod 256; for a
well-formed 17-byte report whose padding bytes are zero this coincides
with the sum of all 17 bytes being congruent to 85 mod 256. -/
theorem c1_amended (r : StandardReport) (herr : r.error < 256)
    (hdata : ∀ b ∈ r.data, b < 256) (hlen : r.data.length ≤ 10) :
    r.serialize.sum % 256 = 85 ∧
    (∀ bytes : List Nat, (∀ b ∈ bytes, b < 256) →
      (reportChecksumValid bytes = true ↔
        (readHashedBytes bytes).sum % 256 = 85)) ∧
    (∀ (h0 h1 h2 h3 h4 c : Nat) (data : List Nat),
      (∀ b ∈ [h0, h1, h2, h3, h4], b < 256) → (∀ b ∈ data, b < 256) →
      c < 256 → data.length ≤ 10 →
      (reportChecksumValid ([h0, h1, h2, h3, h4, data.length] ++ data ++
          List.replicate (10 - data.length) 0 ++ [c]) = true ↔
        ([h0, h1, h2, h3, h4, data.length] ++ data ++
          List.replicate (10 - data.length) 0 ++ [c]).sum % 256 = 85)) := by
  refine ⟨?_, fun bytes hb => reportChecksumValid_iff bytes hb, ?_⟩
  · have h16 := bytes16_lt r herr hdata hlen
    have hcast : ((r.serialize.sum : Nat) : ZMod 256) = ((85 : Nat) : ZMod 256) := by
      unfold StandardReport.serialize
      rw [List.sum_append, List.sum_cons, List.sum_nil, Nat.cast_add,
        Nat.cast_add, compute_checksum_cast _ h16]
      push_cast
      ring
    have : ((r.serialize.sum % 256 : Nat) : ZMod 256) = ((85 : Nat) : ZMod 256) := by
      rw [ZMod.natCast_mod]; exact hcast
    exact cast_inj_of_lt (Nat.mod_lt _ (by omega)) (by omega) this
  · intro h0 h1 h2 h3 h4 c data hh hd hc hn
    have hbl : ∀ b ∈ ([h0, h1, h2, h3, h4, data.length] ++ data ++
        List.replicate (10 - data.length) 0 ++ [c]), b < 256 := by
      intro b hbm
      rcases List.mem_append.mp hbm with hx | hx
      · rcases List.mem_append.mp hx with hy | hy
        · rcases List.mem_append.mp hy with hz | hz
          · simp only [List.mem_cons, List.not_mem_nil, or_false] at hz
            rcases hz with rfl | rfl | rfl | rfl | rfl | rfl
            · exact hh b (by simp)
            · exact hh b (by simp)
            · exact hh b (by simp)
            · exact hh b (by simp)
            · exact hh b (by simp)
            · omega
          · exact hd b hz
        · rcases List.mem_replicate.mp hy with ⟨-, rfl⟩
          omega
      · rcases List.mem_singleton.mp hx with rfl
        exact hc
    have hassocR : ([h0, h1, h2, h3, h4, data.length] ++ data ++
        List.replicate (10 - data.length) 0 ++ [c]) =
        ([h0, h1, h2, h3, h4, data.length] ++ (data ++
          (List.replicate (10 - data.length) 0 ++ [c]))) := by
      simp [List.append_assoc]
    have hget5 : (([h0, h1, h2, h3, h4, data.length] ++ (data ++
        (List.replicate (10 - data.length) 0 ++ [c])))).getD 5 0 = data.length := by
      rw [List.getD_append _ _ _ _ (by simp)]
      rfl
    have htake6 : (([h0, h1, h2, h3, h4, data.length] ++ (data ++
        (List.replicate (10 - data.length) 0 ++ [c])))).take 6 =
        [h0, h1, h2, h3, h4, data.length] := List.take_left' (by simp)
    have hdrop6 : (([h0, h1, h2, h3, h4, data.length] ++ (data ++
        (List.replicate (10 - data.length) 0 ++ [c])))).drop 6 =
        data ++ (List.replicate (10 - data.length) 0 ++ [c]) :=
      List.drop_left' (by simp)
    have htaked : (data ++ (List.replicate (10 - data.length) 0 ++ [c])).take
        data.length = data := List.take_left' rfl
    have hget16 : (([h0, h1, h2, h3, h4, data.length] ++ (data ++
        (List.replicate (10 - data.length) 0 ++ [c])))).getD 16 0 = c := by
      have hassoc : ([h0, h1, h2, h3, h4, data.length] ++ (data ++
          (List.replicate (10 - data.length) 0 ++ [c]))) =
          (([h0, h1, h2, h3, h4, data.length] ++ data) ++
            List.replicate (10 - data.length) 0) ++ [c] := by
        simp [List.append_assoc]
      have hfl : ((([h0, h1, h2, h3, h4, data.length] ++ data) ++
          List.replicate (10 - data.length) 0)).length = 16 := by
        simp
        omega
      rw [hassoc, List.getD_append_right _ _ _ _ (by omega), hfl]
      rfl
    have hkey : readHashedBytes ([h0, h1, h2, h3, h4, data.length] ++ data ++
        List.replicate (10 - data.length) 0 ++ [c]) =
        [h0, h1, h2, h3, h4, data.length] ++ (data ++ [c]) := by
      unfold readHashedBytes
      rw [hassocR, htake6, hget5, hdrop6, htaked, hget16]
      simp
    have hsum : ([h0, h1, h2, h3, h4, data.length] ++ data ++
        List.replicate (10 - data.length) 0 ++ [c]).sum =
        ([h0, h1, h2, h3, h4, data.length] ++ (data ++ [c])).sum := by
      simp [List.sum_append, List.sum_replicate]
    rw [reportChecksumValid_iff _ hbl, hkey, hsum]

/-- Witness for c1_amended at the concrete read-active-profile request:
the outbound sum, the hashed-byte characterization of validation at its
serialization, and the zero-pad coincidence at its components. -/
theorem c1_amended_witness :
    readActiveProfileReq.serialize.sum % 256 = 85 ∧
    (reportChecksumValid readActiveProfileReq.serialize = true ↔
      (readHashedBytes readActiveProfileReq.serialize).sum % 256 = 85) ∧
    (reportChecksumValid ([8, 14, 0, 0, 0, ([] : List Nat).length] ++ [] ++
        List.replicate (10 - ([] : List Nat).length) 0 ++ [63]) = true ↔
      ([8, 14, 0, 0, 0, ([] : List Nat).length] ++ [] ++
        List.replicate (10 - ([] : List Nat).length) 0 ++ [63]).sum % 256 = 85) :=
  ⟨(c1_amended readActiveProfileReq (by decide) (by decide) (by decide)).1,
   (c1_amended readActiveProfileReq (by decide) (by decide) (by decide)).2.1
     readActiveProfileReq.serialize (by decide),
   (c1_amended readActiveProfileReq (by decide) (by decide) (by decide)).2.2
     8 14 0 0 0 63 [] (by decide) (by decide) (by decide) (by decide)⟩

/-- Claim C7 counterexample: for d = 12850 the raw encoding truncates
(1310 - 1 = 256 becomes 0 as u8, not a clamp to 255), and encode-then-decode
yields 50, while the claimed formula gives 12850. -/
theorem c7_counterexample :
    dpi_to_raw 12850 = 0 ∧
    dpi_from_raw (dpi_to_raw 12850) = 50 ∧
    ((12850 / 50 : Nat) - 1 + 1) * 50 = 12850 ∧
    (50 : Nat) ≠ 12850 ∧
    min ((12850 / 50 : Nat) - 1) 255 = 255 ∧
    dpi_to_raw 12850 ≠ 255 := by decide

/-- Claim C7 (amended): the raw encoding is saturating_sub(d/50, 1) truncated
mod 256 (the as-u8 cast), encode-then-decode yields
((saturating_sub(d/50,1) mod 256) + 1) * 50, and for d < 12850 this agrees
with the original claim formula (saturating_sub(d/50,1) + 1) * 50. -/
theorem c7_amended (d : Nat) (hd : d < 65536) :
    dpi_to_raw d = ((d / 50) - 1) % 256 ∧
    dpi_from_raw (dpi_to_raw d) = (((d / 50) - 1) % 256 + 1) * 50 ∧
    (d < 12850 → dpi_from_raw (dpi_to_raw d) = ((d / 50) - 1 + 1) * 50) := by
  refine ⟨rfl, rfl, fun h => ?_⟩
  have hdiv : d / 50 ≤ 12849 / 50 := Nat.div_le_div_right (by omega)
  unfold dpi_to_raw dpi_from_raw
  rw [Nat.mod_eq_of_lt (by omega)]

/-- Witness for c7_amended at d = 1600. -/
theorem c7_amended_witness :
    (1600 : Nat) < 65536 ∧
    (dpi_to_raw 1600 = ((1600 / 50) - 1) % 256 ∧
     dpi_from_raw (dpi_to_raw 1600) = (((1600 / 50) - 1) % 256 + 1) * 50 ∧
     ((1600 : Nat) < 12850 →
       dpi_from_raw (dpi_to_raw 1600) = ((1600 / 50) - 1 + 1) * 50)) :=
  ⟨by decide, c7_amended 1600 (by decide)⟩

/-- Claim C2 counterexample: encoding poll_rate = 500 writes value byte 0x02
at offset 0x00 followed by checksum byte 83 = (256 - (171 + 2)) mod 256 at
offset 0x01, not (171 - 2) mod 256 = 169 as claimed. -/
theorem c2_counterexample :
    ((profileToRaw pollRate500Profile).bind
        (fun r => writeRawProfileM 6 r w0)).map WState.sent =
      .ok [(0, [2, 83])] ∧
    (83 : Nat) ≠ (171 - 2) % 256 := by decide

/-- Claim C2 (amended): for every present slot the checksum byte written
immediately after the serialized content equals
(256 - (INIT + sum-of-content)) mod 256 — the two's complement of the
INIT-seeded sum, not (INIT - sum) mod 256 — and the emitted slot bytes
validate under the same INIT; encoding poll_rate = 500 sends value byte
0x02 at offset 0x00 followed by checksum byte 83 at offset 0x01. -/
theorem c2_amended (init : Nat) (payload : List Nat) (_hinit : init < 256) :
    (settingEncode init payload).getLast? =
      some ((256 - sumAdd init payload) % 256) ∧
    sumValid init (settingEncode init payload) = true ∧
    ((profileToRaw pollRate500Profile).bind
        (fun r => writeRawProfileM 6 r w0)).map WState.sent =
      .ok [(0, [2, 83])] := by
  refine ⟨?_, ?_, by decide⟩
  · unfold settingEncode sumFinish
    simp
  · have hs := sumAdd_lt init payload
    simp only [sumValid, settingEncode, sumFinish, sumAdd_append, List.sum_cons,
      List.sum_nil, add_zero, beq_iff_eq]
    omega

/-- Witness for c2_amended: the header INIT 171 with the poll_rate 500
content byte. -/
theorem c2_amended_witness :
    (171 : Nat) < 256 ∧
    ((settingEncode 171 [2]).getLast? = some ((256 - sumAdd 171 [2]) % 256) ∧
     sumValid 171 (settingEncode 171 [2]) = true ∧
     ((profileToRaw pollRate500Profile).bind
         (fun r => writeRawProfileM 6 r w0)).map WState.sent =
       .ok [(0, [2, 83])]) :=
  ⟨by decide, c2_amended 171 [2] (by decide)⟩

/-- Claim C8 (confirmed): translating a default user Profile gives a raw
profile in which every Setting slot is absent, and serializing it through
the profile writer issues no WriteProfileData request at all. -/
theorem c8_confirmed :
    (profileToRaw defaultProfile).map RawProfileM.allAbsent = .ok true ∧
    ((profileToRaw defaultProfile).bind
        (fun r => writeRawProfileM 6 r w0)).map WState.sent = .ok [] := by decide

/-- Claim C4 (code bug): translating a profile whose only button action is
Macro with name "x" (present in its macros table) to raw and back yields
Action Macro with the empty name — raw_profile_to_actions_macros builds
Action::Macro with String::new() instead of the stored macro name — so the
round trip does not restore the profile, although the macros map itself
keeps the name as its key. -/
theorem c4_code_bug :
    ((profileToRaw c4Profile).bind rawToProfile).map ProfileU.button_actions =
      .ok [ActionU.macroAct ""] ∧
    c4Profile.button_actions = [ActionU.macroAct "x"] ∧
    (ActionU.macroAct "" : ActionU) ≠ .macroAct "x" ∧
    ((profileToRaw c4Profile).bind rawToProfile).map ProfileU.macros =
      .ok [("x", [])] ∧
    (profileToRaw c4Profile).bind rawToProfile ≠ .ok c4Profile := by decide

/-- Claim C5 (code bug): when the inner operation fails, the facade's
early return (the ? operator) skips the restore of the originally active
profile index.  Starting at active index 0 and targeting index 1: a
failed inner read in profile, and a failed conversion or write in
set_profile, all leave the device at active index 1. -/
theorem c5_code_bug :
    facadeProfile (α := Unit) (β := Unit) (.error "read failed")
        (fun _ => .ok ()) 1 ⟨0⟩ = (.error "read failed", ⟨1⟩) ∧
    facadeSetProfile (α := Unit) (.error "conversion failed")
        (fun _ => .ok ()) 1 ⟨0⟩ = (.error "conversion failed", ⟨1⟩) ∧
    facadeSetProfile (α := Unit) (.ok ())
        (fun _ => .error "write failed") 1 ⟨0⟩ = (.error "write failed", ⟨1⟩) ∧
    (DevSt.mk 1).active ≠ (DevSt.mk 0).active := by decide

/-- Claim C6 counterexample: the first read fails with UnexpectedReport (a
parse failure: the report-ID byte is not 8), yet make_request does not
surface it — it skips the failure and returns the second, matching
report. -/
theorem c6_counterexample :
    makeRequest 8 c6Dev = .ok 8 ∧
    makeRequest 8 c6Dev ≠ .error .unexpectedReport := by decide

theorem mrfSkip {reqCmd : Nat} {dev : Nat → ReadOutcome} {k : Nat}
    (h : skippable reqCmd (dev k) = true) (fuel : Nat) :
    makeRequestFrom reqCmd dev (fuel + 1) k = makeRequestFrom reqCmd dev fuel (k + 1) := by
  cases hd : dev k with
  | okR c =>
    by_cases hc : c = reqCmd
    · simp [skippable, hd, hc] at h
    · simp [makeRequestFrom, hd, hc]
  | errUnexpected => simp [makeRequestFrom, hd]
  | errOther e => simp [skippable, hd] at h

theorem mrfHit {reqCmd : Nat} {dev : Nat → ReadOutcome} {k : Nat}
    (h : skippable reqCmd (dev k) = false) (fuel : Nat) :
    (∃ e, dev k = .errOther e ∧
      makeRequestFrom reqCmd dev (fuel + 1) k = .error (.other e)) ∨
    (dev k = .okR reqCmd ∧ makeRequestFrom reqCmd dev (fuel + 1) k = .ok reqCmd) := by
  cases hd : dev k with
  | okR c =>
    by_cases hc : c = reqCmd
    · subst hc
      exact .inr ⟨rfl, by simp [makeRequestFrom, hd]⟩
    · simp [skippable, hd, hc] at h
  | errUnexpected => simp [skippable, hd] at h
  | errOther e => exact .inl ⟨e, rfl, by simp [makeRequestFrom, hd]⟩

/-- Claim C6 (amended): during the response loop, a failure other than
UnexpectedReport is surfaced immediately; reports whose report-ID byte is
not 8 (UnexpectedReport) are skipped just like well-formed reports with a
non-matching command byte; and three skipped reads fail with NoResponse. -/
theorem c6_amended (reqCmd : Nat) (dev : Nat → ReadOutcome) :
    ((∀ i < 3, skippable reqCmd (dev i) = true) →
      makeRequest reqCmd dev = .error .noResponse) ∧
    (∀ n < 3, (∀ i < n, skippable reqCmd (dev i) = true) →
      skippable reqCmd (dev n) = false →
      ((∃ e, dev n = .errOther e ∧ makeRequest reqCmd dev = .error (.other e)) ∨
       (dev n = .okR reqCmd ∧ makeRequest reqCmd dev = .ok reqCmd))) := by
  constructor
  · intro h
    show makeRequestFrom reqCmd dev 3 0 = .error .noResponse
    rw [mrfSkip (h 0 (by omega)) 2, mrfSkip (h 1 (by omega)) 1,
      mrfSkip (h 2 (by omega)) 0]
    rfl
  · intro n hn hpre hhit
    interval_cases n
    · exact mrfHit hhit 2
    · have heq : makeRequest reqCmd dev = makeRequestFrom reqCmd dev 2 1 :=
        mrfSkip (hpre 0 (by omega)) 2
      rcases mrfHit hhit 1 with ⟨e, hd, hm⟩ | ⟨hd, hm⟩
      · exact .inl ⟨e, hd, by rw [heq]; exact hm⟩
      · exact .inr ⟨hd, by rw [heq]; exact hm⟩
    · have heq : makeRequest reqCmd dev = makeRequestFrom reqCmd dev 1 2 := by
        show makeRequestFrom reqCmd dev 3 0 = makeRequestFrom reqCmd dev 1 2
        rw [mrfSkip (hpre 0 (by omega)) 2, mrfSkip (hpre 1 (by omega)) 1]
      rcases mrfHit hhit 0 with ⟨e, hd, hm⟩ | ⟨hd, hm⟩
      · exact .inl ⟨e, hd, by rw [heq]; exact hm⟩
      · exact .inr ⟨hd, by rw [heq]; exact hm⟩

/-- Witness for c6_amended: three wrong-report-ID reads give NoResponse;
a wrong-report-ID read followed by a hard failure surfaces that failure. -/
theorem c6_amended_witness :
    makeRequest 8 c6DevA = .error .noResponse ∧
    ((∃ e, c6DevB 1 = .errOther e ∧ makeRequest 8 c6DevB = .error (.other e)) ∨
     (c6DevB 1 = .okR 8 ∧ makeRequest 8 c6DevB = .ok 8)) :=
  ⟨(c6_amended 8 c6DevA).1 (by decide),
   (c6_amended 8 c6DevB).2 1 (by decide) (by decide) (by decide)⟩

/-- Claim C10 (confirmed): with the absolute position at most 0x1B00 (and
an empty internal buffer, a non-empty destination, and a device returning
the requested lengths), read never hits the length-computation underflow;
any issued ReadProfileData request is at the absolute position for
exactly min(0x1B00 - (origin + position), 10) bytes, hence at most 10;
read returns Ok(0) exactly when origin + position = 0x1B00; seek from
Start accepts any position without a bound check, and a reader past
0x1B00 hits the underflow, so the precondition is required. -/
theorem c10_confirmed (dev : Nat → Nat → List Nat) (s : RState) (destLen : Nat)
    (hdev : ∀ a l, (dev a l).length = l)
    (hbuf : s.buf = []) (hpos : s.address + s.position ≤ DATA_END)
    (hdest : 1 ≤ destLen) :
    (profileRead dev destLen s).1 ≠ .error .underflow ∧
    (∀ a l, (profileRead dev destLen s).2 = some (a, l) →
      a = s.address + s.position ∧
      l = min (DATA_END - (s.address + s.position)) 10 ∧ l ≤ 10) ∧
    ((∃ s', (profileRead dev destLen s).1 = .ok (0, s')) ↔
      s.address + s.position = DATA_END) ∧
    (∀ p s2, profileReaderSeekStart p s2 = { s2 with buf := [], position := p }) ∧
    (∀ s2 : RState, s2.buf = [] → DATA_END < s2.address + s2.position →
      (profileRead dev destLen s2).1 = .error .underflow) := by
  have hq : ¬ DATA_END < s.address + s.position := by omega
  by_cases hz : s.address + s.position = DATA_END
  · have hl0 : min (DATA_END - (s.address + s.position)) 10 = 0 := by omega
    have hread : profileRead dev destLen s = (.ok (0, s), none) := by
      unfold profileRead
      simp [hbuf, hq, hl0]
    refine ⟨by simp [hread], ?_, ?_, fun p s2 => rfl, ?_⟩
    · intro a l h
      simp [hread] at h
    · rw [hread]
      exact iff_of_true ⟨s, rfl⟩ hz
    · intro s2 hb2 hlt
      unfold profileRead
      simp [hb2, hlt]
  · have hl0 : ¬ min (DATA_END - (s.address + s.position)) 10 = 0 := by omega
    have hread : profileRead dev destLen s =
        (profileReadCopy destLen
          { s with buf := (dev (s.address + s.position)
              (min (DATA_END - (s.address + s.position)) 10) : List Nat) },
         some (s.address + s.position,
           min (DATA_END - (s.address + s.position)) 10)) := by
      unfold profileRead
      simp [hbuf, hq, hl0]
    have hdl : (dev (s.address + s.position)
        (min (DATA_END - (s.address + s.position)) 10)).length =
        min (DATA_END - (s.address + s.position)) 10 := hdev _ _
    refine ⟨?_, ?_, ?_, fun p s2 => rfl, ?_⟩
    · rw [hread]
      unfold profileReadCopy
      by_cases hcb : min destLen (dev (s.address + s.position)
          (min (DATA_END - (s.address + s.position)) 10)).length < destLen
      · simp [hcb]
      · simp [hcb]
    · intro a l h
      rw [hread] at h
      simp only [Option.some.injEq, Prod.mk.injEq] at h
      obtain ⟨rfl, rfl⟩ := h
      exact ⟨rfl, rfl, Nat.min_le_right _ _⟩
    · rw [hread]
      refine iff_of_false ?_ hz
      unfold profileReadCopy
      by_cases hcb : min destLen (dev (s.address + s.position)
          (min (DATA_END - (s.address + s.position)) 10)).length < destLen
      · simp only [hcb, if_true]
        rintro ⟨s', h⟩
        cases h
      · simp only [hcb, if_false]
        rintro ⟨s', h⟩
        simp only [Except.ok.injEq, Prod.mk.injEq] at h
        have h1 := h.1
        rw [hdl] at hcb
        omega
    · intro s2 hb2 hlt
      unfold profileRead
      simp [hb2, hlt]

/-- Witness for c10_confirmed at a reader three bytes before the data end
with a well-behaved zero-returning device. -/
theorem c10_confirmed_witness :
    ((∀ a l, (c10Dev a l).length = l) ∧
      (RState.mk [] 0 0x1AFD).buf = [] ∧
      (RState.mk [] 0 0x1AFD).address + (RState.mk [] 0 0x1AFD).position ≤ DATA_END ∧
      (1 : Nat) ≤ 1) ∧
    (profileRead c10Dev 1 (RState.mk [] 0 0x1AFD)).1 ≠ .error .underflow :=
  ⟨⟨fun a l => by simp [c10Dev], rfl, by decide, by decide⟩,
   (c10_confirmed c10Dev (RState.mk [] 0 0x1AFD) 1
     (fun a l => by simp [c10Dev]) rfl (by decide) (by decide)).1⟩

theorem decodeSetting2_isSome {img : Nat → Nat} {p : Nat} {o : Option Nat}
    (h : decodeSetting2 img p = some o) : o.isSome = true := by
  unfold decodeSetting2 at h
  split at h
  · injection h with h1
    subst h1
    rfl
  · exact Option.noConfusion h

theorem decodeDpiSlot_isSome {img : Nat → Nat} {p : Nat} {o : Option (Nat × Nat)}
    (h : decodeDpiSlot img p = some o) : o.isSome = true := by
  unfold decodeDpiSlot at h
  split at h
  · injection h with h1
    subst h1
    rfl
  · exact Option.noConfusion h

theorem decodeColorSlot_isSome {img : Nat → Nat} {p : Nat}
    {o : Option (Nat × Nat × Nat)} (h : decodeColorSlot img p = some o) :
    o.isSome = true := by
  unfold decodeColorSlot at h
  split at h
  · injection h with h1
    subst h1
    rfl
  · exact Option.noConfusion h

theorem decodeActionSlot_isSome {img : Nat → Nat} {p : Nat}
    {o : Option RawActionM} (h : decodeActionSlot img p = some o) :
    o.isSome = true := by
  unfold decodeActionSlot at h
  rw [Option.bind_eq_some] at h
  obtain ⟨pair, _, h2⟩ := h
  split at h2
  · injection h2 with h1
    subst h1
    rfl
  · exact Option.noConfusion h2

theorem mapOption_isSome {α β : Type} {f : α → Option (Option β)}
    (hf : ∀ a o, f a = some o → o.isSome = true) :
    ∀ (l : List α) (ys : List (Option β)), mapOption f l = some ys →
      ∀ y ∈ ys, y.isSome = true := by
  intro l
  induction l with
  | nil =>
    intro ys h y hy
    unfold mapOption at h
    injection h with h1
    subst h1
    cases hy
  | cons a rest ih =>
    intro ys h y hy
    unfold mapOption at h
    cases hfa : f a with
    | none => rw [hfa] at h; exact Option.noConfusion h
    | some b =>
      rw [hfa] at h
      cases hrest : mapOption f rest with
      | none => rw [hrest] at h; exact Option.noConfusion h
      | some bs =>
        rw [hrest] at h
        simp only [Option.map_some'] at h
        injection h with h1
        subst h1
        rcases List.mem_cons.mp hy with rfl | hmem
        · exact hf a y hfa
        · exact ih bs hrest y hmem

/-- Claim C9 (confirmed): whenever the strict header read succeeds, every
header setting holds Some — poll_rate, dpi_count, current_dpi_index,
lift_off_distance, every element of dpis, dpi_colors and button_actions,
debounce_ms, motion_sync, angle_snapping, ripple_control,
peak_performance, peak_performance_time, high_performance — so the
unwrap on dpi_count during decoding and the expect / unwrap calls in the
RawProfile-to-Profile conversion cannot panic on a successfully read
profile. -/
theorem c9_confirmed (numButtons : Nat) (img : Nat → Nat) (r : RawProfileM)
    (h : decodeHeader numButtons img = some r) :
    r.poll_rate.isSome = true ∧ r.dpi_count.isSome = true ∧
    r.current_dpi_index.isSome = true ∧ r.lift_off_distance.isSome = true ∧
    (∀ d ∈ r.dpis, d.isSome = true) ∧ (∀ c ∈ r.dpi_colors, c.isSome = true) ∧
    (∀ a ∈ r.button_actions, a.isSome = true) ∧
    r.debounce_ms.isSome = true ∧ r.motion_sync.isSome = true ∧
    r.angle_snapping.isSome = true ∧ r.ripple_control.isSome = true ∧
    r.peak_performance.isSome = true ∧ r.peak_performance_time.isSome = true ∧
    r.high_performance.isSome = true := by
  have tailSome : ∀ (im : Nat → Nat)
      (t : Option Nat × Option Nat × Option Nat × Option Nat × Option Nat ×
        Option Nat × Option Nat), decodeHeaderTail im = some t →
      t.1.isSome = true ∧ t.2.1.isSome = true ∧ t.2.2.1.isSome = true ∧
      t.2.2.2.1.isSome = true ∧ t.2.2.2.2.1.isSome = true ∧
      t.2.2.2.2.2.1.isSome = true ∧ t.2.2.2.2.2.2.isSome = true := by
    intro im t ht
    unfold decodeHeaderTail at ht
    simp only [Option.bind_eq_bind', Option.bind_eq_some, Option.pure_def,
      Option.some.injEq] at ht
    obtain ⟨de, hde, ms, hms, asn, hasn, rc, hrc, pp, hpp, ppt, hppt,
      hp2, hhp, hteq⟩ := ht
    subst hteq
    exact ⟨decodeSetting2_isSome hde, decodeSetting2_isSome hms,
      decodeSetting2_isSome hasn, decodeSetting2_isSome hrc,
      decodeSetting2_isSome hpp, decodeSetting2_isSome hppt,
      decodeSetting2_isSome hhp⟩
  unfold decodeHeader at h
  simp only [Option.bind_eq_bind', Option.bind_eq_some, Option.pure_def,
    Option.some.injEq] at h
  obtain ⟨u1, hu1, pr, hpr, dc, hdc, u2, hu2, ci, hci, u3, hu3, lo, hlo,
    count, hcount, dpis, hdpis, colors, hcolors, actions, hactions,
    t, ht, hr⟩ := h
  subst hr
  obtain ⟨t1, t2, t3, t4, t5, t6, t7⟩ := tailSome img t ht
  exact ⟨decodeSetting2_isSome hpr, decodeSetting2_isSome hdc,
    decodeSetting2_isSome hci, decodeSetting2_isSome hlo,
    fun d hd => mapOption_isSome (fun _ o hh => decodeDpiSlot_isSome hh)
      _ _ hdpis d hd,
    fun c hc => mapOption_isSome (fun _ o hh => decodeColorSlot_isSome hh)
      _ _ hcolors c hc,
    fun a ha => mapOption_isSome (fun _ o hh => decodeActionSlot_isSome hh)
      _ _ hactions a ha,
    t1, t2, t3, t4, t5, t6, t7⟩

/-- Witness for c9_confirmed at the concrete valid header image. -/
theorem c9_confirmed_witness :
    decodeHeader 6 c9Img = some c9Hdr ∧
    (c9Hdr.poll_rate.isSome = true ∧ c9Hdr.dpi_count.isSome = true ∧
     c9Hdr.current_dpi_index.isSome = true ∧
     c9Hdr.lift_off_distance.isSome = true ∧
     (∀ d ∈ c9Hdr.dpis, d.isSome = true) ∧
     (∀ c ∈ c9Hdr.dpi_colors, c.isSome = true) ∧
     (∀ a ∈ c9Hdr.button_actions, a.isSome = true) ∧
     c9Hdr.debounce_ms.isSome = true ∧ c9Hdr.motion_sync.isSome = true ∧
     c9Hdr.angle_snapping.isSome = true ∧ c9Hdr.ripple_control.isSome = true ∧
     c9Hdr.peak_performance.isSome = true ∧
     c9Hdr.peak_performance_time.isSome = true ∧
     c9Hdr.high_performance.isSome = true) :=
  ⟨by decide, c9_confirmed 6 c9Img c9Hdr (by decide)⟩

/-- Claim C3 counterexample: on the image whose poll_rate checksum byte at
offset 0x01 is invalid while every other header slot validates, the
header decode fails (returns no profile) instead of succeeding with
poll_rate = None as the claim states. -/
theorem c3_counterexample :
    decodeHeader 6 c3Img = none ∧
    sumValid 171 [c3Img 0, c3Img 1] = false ∧
    sumValid 171 [c3Img 2, c3Img 3] = true ∧
    sumValid 171 [c3Img 4, c3Img 5] = true ∧
    sumValid 171 [c3Img 10, c3Img 11] = true ∧
    sumValid 171 [c3Img 12, c3Img 13, c3Img 15] = true ∧
    sumValid 171 [c3Img 44, c3Img 45, c3Img 46, c3Img 47] = true ∧
    (∀ i < 6, decodeActionSlot c3Img (96 + 4 * i) = some (some .disabled)) ∧
    sumValid 171 [c3Img 169, c3Img 170] = true ∧
    sumValid 171 [c3Img 171, c3Img 172] = true ∧
    sumValid 171 [c3Img 175, c3Img 176] = true ∧
    sumValid 171 [c3Img 177, c3Img 178] = true ∧
    sumValid 171 [c3Img 181, c3Img 182] = true ∧
    sumValid 171 [c3Img 183, c3Img 184] = true ∧
    sumValid 171 [c3Img 185, c3Img 186] = true := by decide

/-- Claim C3 (amended): an invalid checksum in a header slot (in
particular the poll_rate slot at offsets 0x00-0x01) fails the whole
header decode with an error; only the separately read combo and macro
slots are tolerant — whenever the header decodes, the full profile read
succeeds, with one (possibly absent) combo and macro entry per button. -/
theorem c3_amended (numButtons : Nat) (img : Nat → Nat)
    (hinv : sumValid 171 [img 0, img 1] = false) :
    decodeHeader numButtons img = none ∧
    (∀ nb img2 hdr, decodeHeader nb img2 = some hdr →
      ∃ full, readFromMouseM nb img2 = some full ∧
        full.combos.length = nb ∧ full.macros.length = nb) := by
  constructor
  · have h2 : decodeSetting2 img 0 = none := by
      unfold decodeSetting2
      rw [hinv]
      simp
    unfold decodeHeader
    simp only [Option.bind_eq_bind', h2, Option.none_bind]
    cases guardO (numButtons ≤ 16) <;> rfl
  · intro nb img2 hdr hh
    have hfull : readFromMouseM nb img2 = some { hdr with
        combos := (List.range nb).map (fun i => parseRawCombo img2 (0x0100 + 32 * i)),
        macros := (List.range nb).map (fun i => parseRawMacro img2 (0x0300 + 384 * i)) } := by
      unfold readFromMouseM
      rw [hh]
      simp only [Option.bind_eq_bind', Option.some_bind, Option.pure_def]
    exact ⟨_, hfull, by simp, by simp⟩

/-- Witness for c3_amended: the concrete invalid image fails to decode;
the concrete valid image yields a full read with 6 combo and macro
entries. -/
theorem c3_amended_witness :
    decodeHeader 6 c3Img = none ∧
    (∃ full, readFromMouseM 6 c9Img = some full ∧
      full.combos.length = 6 ∧ full.macros.length = 6) :=
  ⟨(c3_amended 6 c3Img (by decide)).1,
   (c3_amended 6 c3Img (by decide)).2 6 c9Img c9Hdr (by decide)⟩

end LamzuCfg
